import Mathlib

/-!
# HTTP status text resolution (`status.go`)

A shallow embedding of the package-level state of `status.go` (the two maps
`statusText` and `customStatusText` and the flag `customSingleResponseStatus`)
and of its five functions, followed by theorems about them.

Modelling choices.

* A Go `map[int]string` is a finite partial function; it is modelled as a total
  function `Int → Option String` (`none` = no entry).  A read `m[k]` of a
  missing key yields the zero value `""`; the two-result read `v, ok = m[k]`
  yields `("", false)`.
* A Go `int` is a 64-bit two's-complement integer.  It is modelled as an `Int`
  in `[-2^63, 2^63)`; `-` and `+` are followed by `wrapInt`, reduction to that
  range modulo `2^64`.
* The mutexes only serialise the writes; a call is modelled as one atomic
  state transformer.
-/

namespace Status

/-! ## Machine integers -/

/-- Reduction of a mathematical integer to the 64-bit two's-complement range. -/
def wrapInt (x : Int) : Int :=
  (x + 9223372036854775808) % 18446744073709551616 - 9223372036854775808

/-- The values a Go `int` can hold. -/
def IsInt (x : Int) : Prop :=
  -9223372036854775808 ≤ x ∧ x < 9223372036854775808

instance (x : Int) : Decidable (IsInt x) := by
  unfold IsInt; infer_instance

/-- Go `a - b` on `int`. -/
def subInt (a b : Int) : Int := wrapInt (a - b)

/-- Go `a + b` on `int`. -/
def addInt (a b : Int) : Int := wrapInt (a + b)

/-! ## Maps -/

/-- A Go `map[int]string`. -/
abbrev GoMap := Int → Option String

/-- The empty map literal `map[int]string{}`. -/
def GoMap.empty : GoMap := fun _ => none

/-- The assignment `m[k] = v`. -/
def GoMap.set (m : GoMap) (k : Int) (v : String) : GoMap :=
  fun x => if x = k then some v else m x

/-- The one-result read `m[k]`. -/
def GoMap.index (m : GoMap) (k : Int) : String :=
  (m k).getD ""

/-- The two-result read `v, ok = m[k]`. -/
def GoMap.commaOk (m : GoMap) (k : Int) : String × Bool :=
  match m k with
  | some v => (v, true)
  | none => ("", false)

/-! ## The declared table -/

/-- The entries of the map literal `statusText`, in source order, with the
status constants replaced by their values. -/
def statusTextEntries : List (Int × String) :=
  [ (100, "Continue"),
    (101, "Switching Protocols"),
    (102, "Processing"),
    (103, "Early Hints"),

    (200, "OK"),
    (201, "Created"),
    (202, "Accepted"),
    (203, "Non-Authoritative Information"),
    (204, "No Content"),
    (205, "Reset Content"),
    (206, "Partial Content"),
    (207, "Multi-Status"),
    (208, "Already Reported"),
    (226, "IM Used"),

    (300, "Multiple Choices"),
    (301, "Moved Permanently"),
    (302, "Found"),
    (303, "See Other"),
    (304, "Not Modified"),
    (305, "Use Proxy"),
    (307, "Temporary Redirect"),
    (308, "Permanent Redirect"),

    (400, "Bad Request"),
    (401, "Unauthorized"),
    (402, "Payment Required"),
    (403, "Forbidden"),
    (404, "Not Found"),
    (405, "Method Not Allowed"),
    (406, "Not Acceptable"),
    (407, "Proxy Authentication Required"),
    (408, "Request Timeout"),
    (409, "Conflict"),
    (410, "Gone"),
    (411, "Length Required"),
    (412, "Precondition Failed"),
    (413, "Request Entity Too Large"),
    (414, "Request URI Too Long"),
    (415, "Unsupported Media Type"),
    (416, "Requested Range Not Satisfiable"),
    (417, "Expectation Failed"),
    (418, "I'm a teapot"),
    (421, "Misdirected Request"),
    (422, "Unprocessable Entity"),
    (423, "Locked"),
    (424, "Failed Dependency"),
    (425, "Too Early"),
    (426, "Upgrade Required"),
    (428, "Precondition Required"),
    (429, "Too Many Requests"),
    (431, "Request Header Fields Too Large"),
    (451, "Unavailable For Legal Reasons"),

    (500, "Internal Server Error"),
    (501, "Not Implemented"),
    (502, "Bad Gateway"),
    (503, "Service Unavailable"),
    (504, "Gateway Timeout"),
    (505, "HTTP Version Not Supported"),
    (506, "Variant Also Negotiates"),
    (507, "Insufficient Storage"),
    (508, "Loop Detected"),
    (510, "Not Extended"),
    (511, "Network Authentication Required") ]

/-- The map built from a map literal: the entry written for a key, if any. -/
def GoMap.ofEntries (es : List (Int × String)) : GoMap :=
  fun k => es.lookup k

/-! ## State -/

/-- The package-level variables of `status.go` (the mutexes carry no data). -/
structure State where
  statusText : GoMap
  customStatusText : GoMap
  customSingleResponseStatus : Bool

/-- The state as declared in the `var (...)` block. -/
def initial : State where
  statusText := GoMap.ofEntries statusTextEntries
  customStatusText := GoMap.empty
  customSingleResponseStatus := false

/-! ## Functions -/

/-- `func StatusText(code int) string`. -/
def StatusText (s : State) (code : Int) : String :=
  s.statusText.index code

/-- `func AddGlobalCustomStatus(code int, text string)`. -/
def AddGlobalCustomStatus (s : State) (code : Int) (text : String) : State :=
  { s with statusText := s.statusText.set code text }

/-- `func EnableSingleCustomRule(enabled bool)`. -/
def EnableSingleCustomRule (s : State) (enabled : Bool) : State :=
  { s with customSingleResponseStatus := enabled }

/-- `func AddCustomStatus(code int, text string)`. -/
def AddCustomStatus (s : State) (code : Int) (text : String) : State :=
  { s with customStatusText := s.customStatusText.set code text }

/-- `func getStatusText(code int) (int, string, bool)`. -/
def getStatusText (s : State) (code : Int) : Int × String × Bool :=
  match s.statusText.commaOk code with
  | (text, true) => (code, text, true)
  | (_, false) =>
    let code := subInt code 20
    match s.customStatusText.commaOk code with
    | (text, true) => (code, text, true)
    | (_, false) =>
      let code := subInt code 220
      match s.customStatusText.commaOk code with
      | (text, true) => (code, text, true)
      | (_, false) => (addInt code 240, "", false)

/-! ## Sequences of calls -/

/-- A call to one of the three functions that write the package state. -/
inductive Call where
  | addGlobal (code : Int) (text : String)
  | enable (enabled : Bool)
  | addCustom (code : Int) (text : String)

/-- The state after one call. -/
def Call.apply (st : State) : Call → State
  | Call.addGlobal code text => AddGlobalCustomStatus st code text
  | Call.enable enabled => EnableSingleCustomRule st enabled
  | Call.addCustom code text => AddCustomStatus st code text

/-- The state after a finite sequence of calls, made in list order. -/
def run (st : State) : List Call → State
  | [] => st
  | c :: cs => run (Call.apply st c) cs

/-! ## Arithmetic of the two shifts -/

/-- Subtracting 20 and then 220 is subtracting 240, wrap-around included. -/
theorem subInt_subInt (code : Int) : subInt (subInt code 20) 220 = subInt code 240 := by
  unfold subInt wrapInt
  omega

/-- Adding 240 back after the two shifts restores a machine integer. -/
theorem addInt_subInt_restore (code : Int) (h : IsInt code) :
    addInt (subInt code 240) 240 = code := by
  unfold IsInt at h
  unfold addInt subInt wrapInt
  omega

/-- Away from the lower end of the range the first shift does not wrap. -/
theorem subInt_twenty_of_ge (code : Int) (h : IsInt code)
    (hlo : -9223372036854775808 + 20 ≤ code) : subInt code 20 = code - 20 := by
  unfold IsInt at h
  unfold subInt wrapInt
  omega

/-- Away from the lower end of the range the second shift does not wrap. -/
theorem subInt_twoForty_of_ge (code : Int) (h : IsInt code)
    (hlo : -9223372036854775808 + 240 ≤ code) : subInt code 240 = code - 240 := by
  unfold IsInt at h
  unfold subInt wrapInt
  omega

/-! ## Map reads and writes -/

theorem GoMap.set_same (m : GoMap) (k : Int) (v : String) : m.set k v k = some v := by
  simp [GoMap.set]

theorem GoMap.set_other (m : GoMap) (k x : Int) (v : String) (h : x ≠ k) :
    m.set k v x = m x := by
  simp [GoMap.set, h]

theorem GoMap.commaOk_some (m : GoMap) (k : Int) (v : String) (h : m k = some v) :
    m.commaOk k = (v, true) := by
  simp [GoMap.commaOk, h]

theorem GoMap.commaOk_none (m : GoMap) (k : Int) (h : m k = none) :
    m.commaOk k = ("", false) := by
  simp [GoMap.commaOk, h]

/-- `AddCustomStatus` does not write `statusText`. -/
theorem AddCustomStatus_statusText (st : State) (c : Int) (t : String) :
    (AddCustomStatus st c t).statusText = st.statusText := rfl

/-! ## The four exits of `getStatusText` -/

/-- Exit 1: the code has an entry in `statusText`. -/
theorem getStatusText_hit (st : State) (code : Int) (text : String)
    (h : st.statusText code = some text) :
    getStatusText st code = (code, text, true) := by
  simp [getStatusText, GoMap.commaOk_some _ _ _ h]

/-- Exit 2: a miss in `statusText`, a hit in `customStatusText` at `code - 20`. -/
theorem getStatusText_shift_one (st : State) (code : Int) (text : String)
    (h1 : st.statusText code = none)
    (h2 : st.customStatusText (subInt code 20) = some text) :
    getStatusText st code = (subInt code 20, text, true) := by
  simp [getStatusText, GoMap.commaOk_none _ _ h1, GoMap.commaOk_some _ _ _ h2]

/-- Exit 3: misses in `statusText` and at `code - 20`, a hit at `code - 240`. -/
theorem getStatusText_shift_two (st : State) (code : Int) (text : String)
    (h1 : st.statusText code = none)
    (h2 : st.customStatusText (subInt code 20) = none)
    (h3 : st.customStatusText (subInt code 240) = some text) :
    getStatusText st code = (subInt code 240, text, true) := by
  simp [getStatusText, GoMap.commaOk_none _ _ h1, GoMap.commaOk_none _ _ h2,
    GoMap.commaOk_some _ _ _ h3, subInt_subInt]

/-- Exit 4: three misses; the value returned is `((code - 20) - 220) + 240`. -/
theorem getStatusText_miss (st : State) (code : Int)
    (h1 : st.statusText code = none)
    (h2 : st.customStatusText (subInt code 20) = none)
    (h3 : st.customStatusText (subInt code 240) = none) :
    getStatusText st code = (addInt (subInt code 240) 240, "", false) := by
  simp [getStatusText, GoMap.commaOk_none _ _ h1, GoMap.commaOk_none _ _ h2,
    GoMap.commaOk_none _ _ h3, subInt_subInt]

/-- Every entry of the declared table is what the initial map holds for its key
(in particular no key is written twice with different phrases). -/
theorem initial_statusText_entries :
    ∀ e ∈ statusTextEntries, initial.statusText e.1 = some e.2 := by
  decide

/-! ## Lookup in `statusText` -/

/-- C1: in the initial state, for every entry `(code, phrase)` written in the
declared table, `StatusText(code)` is exactly `phrase`; in particular
`StatusText(200) = "OK"`, `StatusText(404) = "Not Found"`,
`StatusText(418) = "I'm a teapot"` and
`StatusText(500) = "Internal Server Error"`. -/
theorem StatusText_initial_entry (code : Int) (phrase : String)
    (h : (code, phrase) ∈ statusTextEntries) :
    StatusText initial code = phrase ∧
      StatusText initial 200 = "OK" ∧
      StatusText initial 404 = "Not Found" ∧
      StatusText initial 418 = "I'm a teapot" ∧
      StatusText initial 500 = "Internal Server Error" := by
  refine ⟨?_, by decide, by decide, by decide, by decide⟩
  have hk := initial_statusText_entries (code, phrase) h
  simp only at hk
  simp [StatusText, GoMap.index, hk]

/-- Witness of C1 at the entry written for 418. -/
theorem StatusText_initial_entry_witness :
    (418, "I'm a teapot") ∈ statusTextEntries ∧
      StatusText initial 418 = "I'm a teapot" :=
  ⟨by decide, (StatusText_initial_entry 418 "I'm a teapot" (by decide)).1⟩

/-- C2: in every state, for every code that has no entry in `statusText`,
`StatusText(code)` is the empty string. -/
theorem StatusText_no_entry (st : State) (code : Int)
    (h : st.statusText code = none) : StatusText st code = "" := by
  simp [StatusText, GoMap.index, h]

/-- Witness of C2: 999 has no entry in the initial state. -/
theorem StatusText_no_entry_witness :
    initial.statusText 999 = none ∧ StatusText initial 999 = "" :=
  ⟨by decide, StatusText_no_entry initial 999 (by decide)⟩

/-! ## Resolution with `getStatusText` -/

/-- C3: in every state, for every code `c` and text `g`, after
`AddGlobalCustomStatus(c, g)` the call `getStatusText(c)` returns
`(c, g, true)` and `StatusText(c)` returns `g`, whatever `customStatusText`
holds. -/
theorem getStatusText_after_AddGlobalCustomStatus (st : State) (c : Int) (g : String) :
    getStatusText (AddGlobalCustomStatus st c g) c = (c, g, true) ∧
      StatusText (AddGlobalCustomStatus st c g) c = g := by
  constructor
  · exact getStatusText_hit _ c g (GoMap.set_same _ c g)
  · simp [StatusText, AddGlobalCustomStatus, GoMap.index, GoMap.set_same]

/-- Witness of C3: a state whose custom table has entries at `777 - 20` and
`777 - 240`; after `AddGlobalCustomStatus(777, "Custom")` the global text is
returned. -/
theorem getStatusText_after_AddGlobalCustomStatus_witness :
    getStatusText
        (AddGlobalCustomStatus
          (AddCustomStatus (AddCustomStatus initial 757 "A") 537 "B") 777 "Custom") 777
      = (777, "Custom", true) :=
  (getStatusText_after_AddGlobalCustomStatus
    (AddCustomStatus (AddCustomStatus initial 757 "A") 537 "B") 777 "Custom").1

/-- C4 (first shift): in every state, if `code` has no entry in `statusText`
and `code - 20` (machine subtraction) has the entry `t` in `customStatusText`,
then `getStatusText(code)` returns `(code - 20, t, true)`; nothing is assumed
about `code - 240`. -/
theorem getStatusText_first_shift (st : State) (code : Int) (t : String)
    (h1 : st.statusText code = none)
    (h2 : st.customStatusText (subInt code 20) = some t) :
    getStatusText st code = (subInt code 20, t, true) :=
  getStatusText_shift_one st code t h1 h2

/-- Witness of C4: the custom table has entries at both `120 - 20 = 100` and
`120 - 240 = -120`; the entry at 100 is returned. -/
theorem getStatusText_first_shift_witness :
    (AddCustomStatus (AddCustomStatus initial (-120) "B") 100 "A").statusText 120 = none ∧
      (AddCustomStatus (AddCustomStatus initial (-120) "B") 100 "A").customStatusText
          (subInt 120 20) = some "A" ∧
      (AddCustomStatus (AddCustomStatus initial (-120) "B") 100 "A").customStatusText
          (subInt 120 240) = some "B" ∧
      getStatusText (AddCustomStatus (AddCustomStatus initial (-120) "B") 100 "A") 120
        = (100, "A", true) :=
  ⟨by decide, by decide, by decide,
    getStatusText_first_shift
      (AddCustomStatus (AddCustomStatus initial (-120) "B") 100 "A") 120 "A"
      (by decide) (by decide)⟩

/-- C5 (second shift): in every state, if `code` has no entry in `statusText`,
`code - 20` has no entry in `customStatusText` and `code - 240` has the entry
`t` there (machine subtraction), then `getStatusText(code)` returns
`(code - 240, t, true)`. -/
theorem getStatusText_second_shift (st : State) (code : Int) (t : String)
    (h1 : st.statusText code = none)
    (h2 : st.customStatusText (subInt code 20) = none)
    (h3 : st.customStatusText (subInt code 240) = some t) :
    getStatusText st code = (subInt code 240, t, true) :=
  getStatusText_shift_two st code t h1 h2 h3

/-- Witness of C5: with the single custom entry 400, code 640 resolves to it. -/
theorem getStatusText_second_shift_witness :
    (AddCustomStatus initial 400 "X").statusText 640 = none ∧
      (AddCustomStatus initial 400 "X").customStatusText (subInt 640 20) = none ∧
      (AddCustomStatus initial 400 "X").customStatusText (subInt 640 240) = some "X" ∧
      getStatusText (AddCustomStatus initial 400 "X") 640 = (400, "X", true) :=
  ⟨by decide, by decide, by decide,
    getStatusText_second_shift (AddCustomStatus initial 400 "X") 640 "X"
      (by decide) (by decide) (by decide)⟩

/-- C6 (not found keeps the original code): in every state, for every machine
integer `code` (64-bit, `-` and `+` modulo `2^64`) with no entry in
`statusText` and no entry in `customStatusText` at `code - 20` or at
`code - 240`, `getStatusText(code)` returns exactly `(code, "", false)`. -/
theorem getStatusText_not_found (st : State) (code : Int) (hc : IsInt code)
    (h1 : st.statusText code = none)
    (h2 : st.customStatusText (subInt code 20) = none)
    (h3 : st.customStatusText (subInt code 240) = none) :
    getStatusText st code = (code, "", false) := by
  rw [getStatusText_miss st code h1 h2 h3, addInt_subInt_restore code hc]

/-- Witness of C6 at the least machine integer, where both shifts wrap around. -/
theorem getStatusText_not_found_witness :
    IsInt (-9223372036854775808) ∧
      subInt (-9223372036854775808) 20 = 9223372036854775788 ∧
      subInt (-9223372036854775808) 240 = 9223372036854775568 ∧
      getStatusText initial (-9223372036854775808) = (-9223372036854775808, "", false) :=
  ⟨by decide, by decide, by decide,
    getStatusText_not_found initial (-9223372036854775808) (by decide)
      (by decide) (by decide) (by decide)⟩

/-! ## The spec examples at 200 and 400 -/

/-- C7, as stated, fails: after `AddCustomStatus(180, "Shifted Continue")` on
the initial state, `getStatusText(200)` is not `(180, "Shifted Continue", true)`. -/
theorem getStatusText_200_after_custom_180_counterexample :
    getStatusText (AddCustomStatus initial 180 "Shifted Continue") 200
      ≠ (180, "Shifted Continue", true) := by
  decide

/-- C7, amended: after `AddCustomStatus(180, "Shifted Continue")` on the
initial state, `getStatusText(200)` returns `(200, "OK", true)`: 200 has an
entry in `statusText`, and that entry is returned before `customStatusText` is
read. -/
theorem getStatusText_200_after_custom_180 :
    getStatusText (AddCustomStatus initial 180 "Shifted Continue") 200
      = (200, "OK", true) := by
  decide

/-- C8, as stated, fails: after `AddCustomStatus(160, "Deep Shift")` on the
initial state, `getStatusText(400)` is not `(160, "Deep Shift", true)`. -/
theorem getStatusText_400_after_custom_160_counterexample :
    getStatusText (AddCustomStatus initial 160 "Deep Shift") 400
      ≠ (160, "Deep Shift", true) := by
  decide

/-- C8, amended: after `AddCustomStatus(160, "Deep Shift")` on the initial
state, `getStatusText(400)` returns `(400, "Bad Request", true)`: 400 has an
entry in `statusText`, and that entry is returned before `customStatusText` is
read. -/
theorem getStatusText_400_after_custom_160 :
    getStatusText (AddCustomStatus initial 160 "Deep Shift") 400
      = (400, "Bad Request", true) := by
  decide

/-! ## The rule documented at `EnableSingleCustomRule` -/

/-- C9 at the failing input `s = 206`: for every text `t`, after
`AddCustomStatus(206, t)` on the initial state, `getStatusText(206 + 20)`
returns `(226, "IM Used", true)`, the declared entry of 226, and not
`(206, t, true)`. -/
theorem getStatusText_226_after_custom_206 (t : String) :
    getStatusText (AddCustomStatus initial 206 t) (206 + 20) = (226, "IM Used", true) ∧
      getStatusText (AddCustomStatus initial 206 t) (206 + 20) ≠ (206, t, true) := by
  have h : getStatusText (AddCustomStatus initial 206 t) (206 + 20)
      = (226, "IM Used", true) :=
    getStatusText_hit _ _ _ (by rw [AddCustomStatus_statusText]; decide)
  refine ⟨h, ?_⟩
  rw [h]
  intro hc
  have h1 := congrArg Prod.fst hc
  simp at h1

/-- The documented `+ 20` rule at every status of its ranges other than 206:
after `AddCustomStatus(s, t)` on the initial state, `getStatusText(s + 20)`
returns `(s, t, true)`. -/
theorem getStatusText_plus_twenty_except_206 (s : Int) (t : String)
    (hs : (100 ≤ s ∧ s ≤ 102) ∨ (200 ≤ s ∧ s ≤ 207) ∨ (300 ≤ s ∧ s ≤ 307) ∨
      (500 ≤ s ∧ s ≤ 510) ∨ s = 600)
    (h206 : s ≠ 206) :
    getStatusText (AddCustomStatus initial s t) (s + 20) = (s, t, true) := by
  have hsub : subInt (s + 20) 20 = s := by
    unfold subInt wrapInt
    omega
  have hmiss : (AddCustomStatus initial s t).statusText (s + 20) = none := by
    rw [AddCustomStatus_statusText]
    rcases hs with ⟨h1, h2⟩ | ⟨h1, h2⟩ | ⟨h1, h2⟩ | ⟨h1, h2⟩ | h1
    · interval_cases s <;> decide
    · interval_cases s <;> first | decide | exact (h206 rfl).elim
    · interval_cases s <;> decide
    · interval_cases s <;> decide
    · subst h1; decide
  have hhit : (AddCustomStatus initial s t).customStatusText (subInt (s + 20) 20)
      = some t := by
    rw [hsub]
    exact GoMap.set_same _ s t
  rw [getStatusText_shift_one _ _ t hmiss hhit, hsub]

/-- C10 (documented `+ 240` rule): for every status `s` in `[400..451]` and
every text `t`, after `AddCustomStatus(s, t)` on the initial state,
`getStatusText(s + 240)` returns `(s, t, true)`. -/
theorem getStatusText_plus_two_forty (s : Int) (t : String)
    (hs : 400 ≤ s ∧ s ≤ 451) :
    getStatusText (AddCustomStatus initial s t) (s + 240) = (s, t, true) := by
  obtain ⟨hlo, hhi⟩ := hs
  have hsub20 : subInt (s + 240) 20 = s + 220 := by
    unfold subInt wrapInt
    omega
  have hsub240 : subInt (s + 240) 240 = s := by
    unfold subInt wrapInt
    omega
  have hmiss : (AddCustomStatus initial s t).statusText (s + 240) = none := by
    rw [AddCustomStatus_statusText]
    interval_cases s <;> decide
  have hmiss20 : (AddCustomStatus initial s t).customStatusText (subInt (s + 240) 20)
      = none := by
    rw [hsub20]
    have hne : s + 220 ≠ s := by omega
    simp [AddCustomStatus, GoMap.set, hne, initial, GoMap.empty]
  have hhit : (AddCustomStatus initial s t).customStatusText (subInt (s + 240) 240)
      = some t := by
    rw [hsub240]
    exact GoMap.set_same _ s t
  rw [getStatusText_shift_two _ _ t hmiss hmiss20 hhit, hsub240]

/-- Witness of C10 at `s = 451`, the upper end of the range. -/
theorem getStatusText_plus_two_forty_witness :
    (400 ≤ (451 : Int) ∧ (451 : Int) ≤ 451) ∧
      getStatusText (AddCustomStatus initial 451 "Gone Legal") (451 + 240)
        = (451, "Gone Legal", true) :=
  ⟨by decide, getStatusText_plus_two_forty 451 "Gone Legal" (by decide)⟩

/-! ## The flag and the precedence of the two tables -/

/-- The third result of `getStatusText` is `true` exactly when one of the three
lookups hits. -/
theorem getStatusText_found_iff (st : State) (code : Int) :
    (getStatusText st code).2.2 = true ↔
      (st.statusText code ≠ none ∨ st.customStatusText (subInt code 20) ≠ none ∨
        st.customStatusText (subInt code 240) ≠ none) := by
  rcases h1 : st.statusText code with _ | t1
  · rcases h2 : st.customStatusText (subInt code 20) with _ | t2
    · rcases h3 : st.customStatusText (subInt code 240) with _ | t3
      · simp [getStatusText_miss st code h1 h2 h3]
      · simp [getStatusText_shift_two st code t3 h1 h2 h3]
    · simp [getStatusText_shift_one st code t2 h1 h2]
  · simp [getStatusText_hit st code t1 h1]

/-- When the third result of `getStatusText` is `false`, the text is empty. -/
theorem getStatusText_text_of_not_found (st : State) (code : Int)
    (h : (getStatusText st code).2.2 = false) : (getStatusText st code).2.1 = "" := by
  rcases h1 : st.statusText code with _ | t1
  · rcases h2 : st.customStatusText (subInt code 20) with _ | t2
    · rcases h3 : st.customStatusText (subInt code 240) with _ | t3
      · simp [getStatusText_miss st code h1 h2 h3]
      · simp [getStatusText_shift_two st code t3 h1 h2 h3] at h
    · simp [getStatusText_shift_one st code t2 h1 h2] at h
  · simp [getStatusText_hit st code t1 h1] at h

/-- C11, as stated, fails: after `AddCustomStatus(100, "X")` and
`EnableSingleCustomRule(false)` on the initial state the flag is `false`, 120
has no entry in `statusText`, and `getStatusText(120)` is `(100, "X", true)`,
not `(120, "", false)`. -/
theorem getStatusText_flag_false_counterexample :
    (EnableSingleCustomRule (AddCustomStatus initial 100 "X") false).customSingleResponseStatus
        = false ∧
      (EnableSingleCustomRule (AddCustomStatus initial 100 "X") false).statusText 120 = none ∧
      getStatusText (EnableSingleCustomRule (AddCustomStatus initial 100 "X") false) 120
        = (100, "X", true) ∧
      getStatusText (EnableSingleCustomRule (AddCustomStatus initial 100 "X") false) 120
        ≠ (120, "", false) := by
  decide

/-- C11, amended: in every state where `customSingleResponseStatus` is `false`,
for every machine integer `code` with no entry in `statusText`,
`getStatusText(code)` returns `(code, "", false)` exactly when
`customStatusText` has no entry at `code - 20` and none at `code - 240`. -/
theorem getStatusText_flag_false (st : State) (code : Int)
    (_hflag : st.customSingleResponseStatus = false) (hc : IsInt code)
    (h1 : st.statusText code = none) :
    getStatusText st code = (code, "", false) ↔
      (st.customStatusText (subInt code 20) = none ∧
        st.customStatusText (subInt code 240) = none) := by
  refine ⟨?_, ?_⟩
  · intro h
    have hf : ¬ (getStatusText st code).2.2 = true := by simp [h]
    rw [getStatusText_found_iff] at hf
    simp only [not_or, not_not] at hf
    exact ⟨hf.2.1, hf.2.2⟩
  · rintro ⟨h2, h3⟩
    rw [getStatusText_miss st code h1 h2 h3, addInt_subInt_restore code hc]

/-- Witness of amended C11: in the initial state (flag `false`) code 999 has no
entry anywhere, so `(999, "", false)` is returned. -/
theorem getStatusText_flag_false_witness :
    initial.customSingleResponseStatus = false ∧ IsInt 999 ∧
      initial.statusText 999 = none ∧
      getStatusText initial 999 = (999, "", false) :=
  ⟨by decide, by decide, by decide,
    (getStatusText_flag_false initial 999 (by decide) (by decide) (by decide)).2
      ⟨by decide, by decide⟩⟩

/-- C12, as stated, fails: 200 has the declared phrase `"OK"`, and after
`AddGlobalCustomStatus(200, "Fine")` on the initial state `getStatusText(200)`
is `(200, "Fine", true)`, not `(200, "OK", true)`. -/
theorem getStatusText_global_over_builtin_counterexample :
    (200, "OK") ∈ statusTextEntries ∧
      getStatusText (AddGlobalCustomStatus initial 200 "Fine") 200 = (200, "Fine", true) ∧
      getStatusText (AddGlobalCustomStatus initial 200 "Fine") 200 ≠ (200, "OK", true) := by
  decide

/-- C12, amended: for every entry `(c, p)` of the declared table and every text
`g`, `getStatusText(c)` returns `(c, p, true)` in the initial state and
`(c, g, true)` after `AddGlobalCustomStatus(c, g)`: the global text replaces
the declared phrase, and the result is `(c, p, true)` only if `g = p`. -/
theorem getStatusText_global_over_builtin (c : Int) (p g : String)
    (h : (c, p) ∈ statusTextEntries) :
    getStatusText initial c = (c, p, true) ∧
      getStatusText (AddGlobalCustomStatus initial c g) c = (c, g, true) ∧
      (getStatusText (AddGlobalCustomStatus initial c g) c = (c, p, true) ↔ g = p) := by
  have hk := initial_statusText_entries (c, p) h
  simp only at hk
  have hg : getStatusText (AddGlobalCustomStatus initial c g) c = (c, g, true) :=
    getStatusText_hit _ c g (GoMap.set_same _ c g)
  refine ⟨getStatusText_hit initial c p hk, hg, ?_⟩
  rw [hg]
  simp

/-- Witness of amended C12 at the entry written for 404. -/
theorem getStatusText_global_over_builtin_witness :
    (404, "Not Found") ∈ statusTextEntries ∧
      getStatusText initial 404 = (404, "Not Found", true) ∧
      getStatusText (AddGlobalCustomStatus initial 404 "Missing") 404
        = (404, "Missing", true) :=
  ⟨by decide,
    (getStatusText_global_over_builtin 404 "Not Found" "Missing" (by decide)).1,
    (getStatusText_global_over_builtin 404 "Not Found" "Missing" (by decide)).2.1⟩

/-! ## Writes to `statusText` -/

/-- A map written twice with the same key and value is the map written once. -/
theorem GoMap.set_set (m : GoMap) (k : Int) (v : String) :
    (m.set k v).set k v = m.set k v := by
  funext x
  by_cases h : x = k <;> simp [GoMap.set, h]

/-- A sequence with no `AddGlobalCustomStatus` call at `c` leaves `statusText[c]`
as it was. -/
theorem run_statusText_of_no_addGlobal (cs : List Call) (st : State) (c : Int)
    (h : ∀ g, Call.addGlobal c g ∉ cs) :
    (run st cs).statusText c = st.statusText c := by
  induction cs generalizing st with
  | nil => rfl
  | cons call cs ih =>
    have htail : ∀ g, Call.addGlobal c g ∉ cs := fun g hg =>
      h g (List.mem_cons_of_mem _ hg)
    rw [run, ih (Call.apply st call) htail]
    cases call with
    | addGlobal code text =>
      have hne : c ≠ code := by
        intro hc
        exact h text (by rw [hc]; exact List.mem_cons_self _ _)
      exact GoMap.set_other _ code c text hne
    | enable enabled => rfl
    | addCustom code text => rfl

/-- C13, as stated, fails: after the single call
`AddGlobalCustomStatus(200, "Fine")` on the initial state, `StatusText(200)` is
`"Fine"`, while it is `"OK"` in the initial state. -/
theorem StatusText_after_calls_counterexample :
    StatusText (run initial [Call.addGlobal 200 "Fine"]) 200 = "Fine" ∧
      StatusText initial 200 = "OK" ∧
      StatusText (run initial [Call.addGlobal 200 "Fine"]) 200 ≠ StatusText initial 200 := by
  decide

/-- C13, amended: for every code `c` and every finite sequence of calls to
`AddGlobalCustomStatus`, `AddCustomStatus` and `EnableSingleCustomRule` applied
to the initial state that contains no `AddGlobalCustomStatus` call with code
`c`, `StatusText(c)` returns the same value as in the initial state. -/
theorem StatusText_after_calls (cs : List Call) (c : Int)
    (h : ∀ g, Call.addGlobal c g ∉ cs) :
    StatusText (run initial cs) c = StatusText initial c := by
  unfold StatusText GoMap.index
  rw [run_statusText_of_no_addGlobal cs initial c h]

/-- Witness of amended C13: a sequence using all three functions, with an
`AddGlobalCustomStatus` call at 777 only, leaves `StatusText(200)` at `"OK"`. -/
theorem StatusText_after_calls_witness :
    (∀ g, Call.addGlobal 200 g ∉
        [Call.addCustom 200 "A", Call.enable true, Call.addGlobal 777 "Custom"]) ∧
      StatusText
          (run initial [Call.addCustom 200 "A", Call.enable true, Call.addGlobal 777 "Custom"])
          200 = "OK" :=
  ⟨by simp,
    (StatusText_after_calls
      [Call.addCustom 200 "A", Call.enable true, Call.addGlobal 777 "Custom"] 200
      (by simp)).trans (by decide)⟩

/-- C14 (idempotence of the writes): in every state, for every code `c` and text
`t`, `AddGlobalCustomStatus(c, t)` made twice gives the same state (both maps
and the flag) as made once, and so does `AddCustomStatus(c, t)`. -/
theorem AddStatus_idempotent (st : State) (c : Int) (t : String) :
    AddGlobalCustomStatus (AddGlobalCustomStatus st c t) c t = AddGlobalCustomStatus st c t ∧
      AddCustomStatus (AddCustomStatus st c t) c t = AddCustomStatus st c t := by
  constructor
  · simp [AddGlobalCustomStatus, GoMap.set_set]
  · simp [AddCustomStatus, GoMap.set_set]

/-- C16 (the flag is not read by resolution): in every state, for every boolean
`b` and code, `getStatusText(code)` and `StatusText(code)` return the same
results before and after `EnableSingleCustomRule(b)`; and any state that agrees
with this one on `statusText` and `customStatusText` gives the same results,
whatever its flag. -/
theorem flag_not_read (st : State) (b : Bool) (code : Int) :
    (getStatusText (EnableSingleCustomRule st b) code = getStatusText st code ∧
      StatusText (EnableSingleCustomRule st b) code = StatusText st code) ∧
    (∀ st2 : State, st2.statusText = st.statusText →
      st2.customStatusText = st.customStatusText →
      getStatusText st2 code = getStatusText st code ∧
        StatusText st2 code = StatusText st code) := by
  refine ⟨⟨rfl, rfl⟩, ?_⟩
  intro st2 hs hc
  simp [getStatusText, StatusText, hs, hc]

/-- Witness of C16: two states with the same maps and opposite flags resolve
code 120 to the same result. -/
theorem flag_not_read_witness :
    (AddCustomStatus initial 100 "X").customSingleResponseStatus = false ∧
      (EnableSingleCustomRule (AddCustomStatus initial 100 "X") true).customSingleResponseStatus
        = true ∧
      getStatusText (EnableSingleCustomRule (AddCustomStatus initial 100 "X") true) 120
        = getStatusText (AddCustomStatus initial 100 "X") 120 :=
  ⟨rfl, rfl,
    ((flag_not_read (AddCustomStatus initial 100 "X") true 120).2
      (EnableSingleCustomRule (AddCustomStatus initial 100 "X") true) rfl rfl).1⟩

/-! ## Empty phrases -/

/-- What `List.lookup` finds is an entry of the list. -/
theorem mem_of_lookup (es : List (Int × String)) (k : Int) (v : String)
    (h : es.lookup k = some v) : (k, v) ∈ es := by
  induction es with
  | nil => simp at h
  | cons e es ih =>
    obtain ⟨a, b⟩ := e
    by_cases hk : k = a
    · subst hk
      simp at h
      simp [h]
    · have hb : (k == a) = false := by simpa using hk
      rw [List.lookup_cons, hb] at h
      exact List.mem_cons_of_mem _ (ih h)

/-- No phrase of the declared table is empty. -/
theorem statusTextEntries_nonempty : ∀ e ∈ statusTextEntries, e.2 ≠ "" := by
  decide

/-- No entry of the initial `statusText` has an empty phrase. -/
theorem initial_statusText_nonempty (k : Int) (t : String)
    (h : initial.statusText k = some t) : t ≠ "" :=
  statusTextEntries_nonempty (k, t) (mem_of_lookup statusTextEntries k t h)

/-- Calls whose global texts are non-empty keep every phrase of `statusText`
non-empty. -/
theorem run_statusText_nonempty (cs : List Call) (st : State)
    (hst : ∀ k t, st.statusText k = some t → t ≠ "")
    (h : ∀ c g, Call.addGlobal c g ∈ cs → g ≠ "") :
    ∀ k t, (run st cs).statusText k = some t → t ≠ "" := by
  induction cs generalizing st with
  | nil => exact hst
  | cons call cs ih =>
    have htail : ∀ c g, Call.addGlobal c g ∈ cs → g ≠ "" := fun c g hg =>
      h c g (List.mem_cons_of_mem _ hg)
    refine ih (Call.apply st call) ?_ htail
    cases call with
    | addGlobal code text =>
      intro k t hk
      by_cases hkc : k = code
      · subst hkc
        have hs : (Call.apply st (Call.addGlobal k text)).statusText k = some text :=
          GoMap.set_same _ k text
        rw [hs] at hk
        have ht : text = t := Option.some.inj hk
        rw [← ht]
        exact h k text (List.mem_cons_self _ _)
      · have hs : (Call.apply st (Call.addGlobal code text)).statusText k = st.statusText k :=
          GoMap.set_other _ code k text hkc
        rw [hs] at hk
        exact hst k t hk
    | enable enabled => exact hst
    | addCustom code text => exact hst

/-- C17, as stated, fails: the state reached from the initial state by
`AddGlobalCustomStatus(700, "")` has an entry at 700 whose phrase is empty, so
`StatusText(700) = ""` although 700 has an entry. -/
theorem StatusText_empty_entry_counterexample :
    (run initial [Call.addGlobal 700 ""]).statusText 700 = some "" ∧
      StatusText (run initial [Call.addGlobal 700 ""]) 700 = "" ∧
      ¬ (StatusText (run initial [Call.addGlobal 700 ""]) 700 = "" ↔
        (run initial [Call.addGlobal 700 ""]).statusText 700 = none) := by
  decide

/-- C17, amended: in every state reached from the initial state by a finite
sequence of `AddGlobalCustomStatus`, `AddCustomStatus` and
`EnableSingleCustomRule` calls in which every `AddGlobalCustomStatus` call has
a non-empty text, every entry of `statusText` has a non-empty phrase, and
`StatusText(code) = ""` if and only if `code` has no entry in `statusText`. -/
theorem StatusText_empty_iff_no_entry (cs : List Call) (code : Int)
    (h : ∀ c g, Call.addGlobal c g ∈ cs → g ≠ "") :
    (∀ t, (run initial cs).statusText code = some t → t ≠ "") ∧
      (StatusText (run initial cs) code = "" ↔
        (run initial cs).statusText code = none) := by
  have hinv := run_statusText_nonempty cs initial initial_statusText_nonempty h
  refine ⟨hinv code, ?_, ?_⟩
  · intro he
    rcases hk : (run initial cs).statusText code with _ | t
    · rfl
    · exfalso
      apply hinv code t hk
      simpa [StatusText, GoMap.index, hk] using he
  · intro hk
    simp [StatusText, GoMap.index, hk]

/-- Witness of amended C17: after calls with non-empty texts, 777 has the entry
`"Custom"` and 999 has none, so `StatusText(999) = ""`. -/
theorem StatusText_empty_iff_no_entry_witness :
    (∀ c g, Call.addGlobal c g ∈
        [Call.addGlobal 777 "Custom", Call.addCustom 100 "", Call.enable true] → g ≠ "") ∧
      (run initial [Call.addGlobal 777 "Custom", Call.addCustom 100 "", Call.enable true]).statusText
          999 = none ∧
      StatusText
          (run initial [Call.addGlobal 777 "Custom", Call.addCustom 100 "", Call.enable true])
          999 = "" :=
  ⟨by simp, by decide,
    (StatusText_empty_iff_no_entry
      [Call.addGlobal 777 "Custom", Call.addCustom 100 "", Call.enable true] 999
      (by simp)).2.2 (by decide)⟩

/-! ## Entries persist -/

/-- A write never removes an entry. -/
theorem GoMap.set_ne_none (m : GoMap) (k x : Int) (v : String) (h : m x ≠ none) :
    m.set k v x ≠ none := by
  by_cases hx : x = k
  · simp [GoMap.set, hx]
  · simpa [GoMap.set, hx] using h

/-- One call keeps every entry of `statusText`. -/
theorem Call.apply_statusText_ne_none (st : State) (call : Call) (k : Int)
    (h : st.statusText k ≠ none) : (Call.apply st call).statusText k ≠ none := by
  cases call with
  | addGlobal code text => exact GoMap.set_ne_none _ code k text h
  | enable enabled => exact h
  | addCustom code text => exact h

/-- One call keeps every entry of `customStatusText`. -/
theorem Call.apply_customStatusText_ne_none (st : State) (call : Call) (k : Int)
    (h : st.customStatusText k ≠ none) :
    (Call.apply st call).customStatusText k ≠ none := by
  cases call with
  | addGlobal code text => exact h
  | enable enabled => exact h
  | addCustom code text => exact GoMap.set_ne_none _ code k text h

/-- A sequence of calls keeps every entry of `statusText`. -/
theorem run_statusText_ne_none (cs : List Call) (st : State) (k : Int)
    (h : st.statusText k ≠ none) : (run st cs).statusText k ≠ none := by
  induction cs generalizing st with
  | nil => exact h
  | cons call cs ih => exact ih _ (Call.apply_statusText_ne_none st call k h)

/-- A sequence of calls keeps every entry of `customStatusText`. -/
theorem run_customStatusText_ne_none (cs : List Call) (st : State) (k : Int)
    (h : st.customStatusText k ≠ none) : (run st cs).customStatusText k ≠ none := by
  induction cs generalizing st with
  | nil => exact h
  | cons call cs ih => exact ih _ (Call.apply_customStatusText_ne_none st call k h)

/-- C18 (resolution is monotone): for every state, code `c` and finite sequence
of `AddGlobalCustomStatus`, `AddCustomStatus` and `EnableSingleCustomRule`
calls, if `getStatusText(c)` reports found = true in the state then it reports
found = true in the state reached by the calls; found = true holds exactly when
`c` has an entry in `statusText` or `c - 20` or `c - 240` (machine subtraction)
has an entry in `customStatusText`; and the text is empty whenever
found = false. -/
theorem getStatusText_found_monotone (st : State) (cs : List Call) (c : Int) :
    ((getStatusText st c).2.2 = true → (getStatusText (run st cs) c).2.2 = true) ∧
      ((getStatusText st c).2.2 = true ↔
        (st.statusText c ≠ none ∨ st.customStatusText (subInt c 20) ≠ none ∨
          st.customStatusText (subInt c 240) ≠ none)) ∧
      ((getStatusText st c).2.2 = false → (getStatusText st c).2.1 = "") := by
  refine ⟨?_, getStatusText_found_iff st c, getStatusText_text_of_not_found st c⟩
  intro h
  rw [getStatusText_found_iff] at h ⊢
  rcases h with h | h | h
  · exact Or.inl (run_statusText_ne_none cs st c h)
  · exact Or.inr (Or.inl (run_customStatusText_ne_none cs st _ h))
  · exact Or.inr (Or.inr (run_customStatusText_ne_none cs st _ h))

/-- Witness of C18: code 120 is found through the custom entry at 100, and is
still found after calls that overwrite that entry and write other keys. -/
theorem getStatusText_found_monotone_witness :
    (getStatusText (AddCustomStatus initial 100 "X") 120).2.2 = true ∧
      (getStatusText
        (run (AddCustomStatus initial 100 "X")
          [Call.addCustom 100 "", Call.enable true, Call.addGlobal 777 "Custom"]) 120).2.2
        = true ∧
      (getStatusText initial 120).2.2 = false ∧ (getStatusText initial 120).2.1 = "" :=
  ⟨by decide,
    (getStatusText_found_monotone (AddCustomStatus initial 100 "X")
      [Call.addCustom 100 "", Call.enable true, Call.addGlobal 777 "Custom"] 120).1 (by decide),
    by decide,
    (getStatusText_found_monotone initial [] 120).2.2 (by decide)⟩

/-! ## Frame of the two writes -/

/-- A machine integer whose first shift lands on `c` is `c + 20`. -/
theorem eq_addInt_of_subInt_twenty (d c : Int) (hd : IsInt d) (h : subInt d 20 = c) :
    d = addInt c 20 := by
  unfold IsInt at hd
  unfold subInt wrapInt at h
  unfold addInt wrapInt
  omega

/-- A machine integer whose second shift lands on `c` is `c + 240`. -/
theorem eq_addInt_of_subInt_twoForty (d c : Int) (hd : IsInt d) (h : subInt d 240 = c) :
    d = addInt c 240 := by
  unfold IsInt at hd
  unfold subInt wrapInt at h
  unfold addInt wrapInt
  omega

/-- States that agree at the three keys `getStatusText` reads give the same
result. -/
theorem getStatusText_congr (st1 st2 : State) (d : Int)
    (h1 : st1.statusText d = st2.statusText d)
    (h2 : st1.customStatusText (subInt d 20) = st2.customStatusText (subInt d 20))
    (h3 : st1.customStatusText (subInt d 240) = st2.customStatusText (subInt d 240)) :
    getStatusText st1 d = getStatusText st2 d := by
  rw [← subInt_subInt] at h3
  simp [getStatusText, GoMap.commaOk, h1, h2, h3]

/-- C19 (each write touches one key of one map): `AddCustomStatus(c, t)` leaves
`statusText`, the flag and every `customStatusText` entry other than `c`
unchanged, so it never changes `StatusText` and leaves `getStatusText(d)`
unchanged for every machine integer `d` other than `c + 20` and `c + 240`;
`AddGlobalCustomStatus(c, g)` leaves `customStatusText`, the flag and every
`statusText` entry other than `c` unchanged, so it leaves `getStatusText(d)` and
`StatusText(d)` unchanged for every `d` other than `c`. -/
theorem write_frame (st : State) (c d : Int) (t : String) :
    ((AddCustomStatus st c t).statusText = st.statusText ∧
      (AddCustomStatus st c t).customSingleResponseStatus = st.customSingleResponseStatus ∧
      (AddCustomStatus st c t).customStatusText c = some t ∧
      (∀ k, k ≠ c → (AddCustomStatus st c t).customStatusText k = st.customStatusText k) ∧
      StatusText (AddCustomStatus st c t) d = StatusText st d ∧
      (IsInt d → d ≠ addInt c 20 → d ≠ addInt c 240 →
        getStatusText (AddCustomStatus st c t) d = getStatusText st d)) ∧
    ((AddGlobalCustomStatus st c t).customStatusText = st.customStatusText ∧
      (AddGlobalCustomStatus st c t).customSingleResponseStatus
        = st.customSingleResponseStatus ∧
      (AddGlobalCustomStatus st c t).statusText c = some t ∧
      (∀ k, k ≠ c → (AddGlobalCustomStatus st c t).statusText k = st.statusText k) ∧
      (d ≠ c → StatusText (AddGlobalCustomStatus st c t) d = StatusText st d ∧
        getStatusText (AddGlobalCustomStatus st c t) d = getStatusText st d)) := by
  refine ⟨⟨rfl, rfl, GoMap.set_same _ c t, fun k hk => GoMap.set_other _ c k t hk, rfl, ?_⟩,
    ⟨rfl, rfl, GoMap.set_same _ c t, fun k hk => GoMap.set_other _ c k t hk, ?_⟩⟩
  · intro hd h20 h240
    apply getStatusText_congr
    · rfl
    · exact GoMap.set_other _ c _ t (fun h => h20 (eq_addInt_of_subInt_twenty d c hd h))
    · exact GoMap.set_other _ c _ t (fun h => h240 (eq_addInt_of_subInt_twoForty d c hd h))
  · intro hdc
    have hk : (AddGlobalCustomStatus st c t).statusText d = st.statusText d :=
      GoMap.set_other _ c d t hdc
    refine ⟨?_, getStatusText_congr _ _ d hk rfl rfl⟩
    simp [StatusText, GoMap.index, hk]

/-- Witness of C19: `AddCustomStatus(100, "X")` changes the result for 120 and
leaves the result for 121 as it was; `AddGlobalCustomStatus(100, "X")` leaves the
result for 101 as it was. -/
theorem write_frame_witness :
    getStatusText (AddCustomStatus initial 100 "X") 120 ≠ getStatusText initial 120 ∧
      (IsInt 121 ∧ (121 : Int) ≠ addInt 100 20 ∧ (121 : Int) ≠ addInt 100 240) ∧
      getStatusText (AddCustomStatus initial 100 "X") 121 = getStatusText initial 121 ∧
      getStatusText (AddGlobalCustomStatus initial 100 "X") 101 = getStatusText initial 101 :=
  ⟨by decide, ⟨by decide, by decide, by decide⟩,
    (write_frame initial 100 121 "X").1.2.2.2.2.2 (by decide) (by decide) (by decide),
    ((write_frame initial 100 101 "X").2.2.2.2.2 (by decide)).2⟩

end Status
